import Mathlib

/-!
# certgen: classification of subject identifiers and template construction

A shallow embedding of `certgen.go` (package `main`).  Go strings are modelled as
Lean `String`s (sequences of Unicode code points, i.e. valid UTF-8 input).  The
standard-library parsers the program calls (`net.ParseIP`, `mail.ParseAddress`,
`url.Parse`, `time.Parse`) and its sources of randomness are not part of this
repository; they enter the model as the fields of an environment `Env`.
-/

set_option linter.dupNamespace false

namespace Certgen

/-! ## `strings` helpers used by `main` -/

/-- Go `unicode.IsSpace`: the Latin-1 spaces `\t \n \v \f \r`, space, U+0085,
U+00A0, and the code points with the Unicode White_Space property. -/
def isSpace (c : Char) : Bool :=
  let n := c.toNat
  (9 ≤ n && n ≤ 13) || n = 0x20 || n = 0x85 || n = 0xA0 || n = 0x1680 ||
  (0x2000 ≤ n && n ≤ 0x200A) || n = 0x2028 || n = 0x2029 || n = 0x202F ||
  n = 0x205F || n = 0x3000

/-- Remove the trailing characters satisfying `p`. -/
def dropWhileEnd (p : Char → Bool) (l : List Char) : List Char :=
  (l.reverse.dropWhile p).reverse

/-- Go `strings.TrimSpace`: strip leading and trailing white space. -/
def TrimSpace (s : String) : String :=
  String.mk (dropWhileEnd isSpace (s.toList.dropWhile isSpace))

/-- Split a character list at every comma; the result always has one more
piece than there are commas. -/
def splitComma : List Char → List (List Char)
  | [] => [[]]
  | c :: cs =>
    if c = ',' then [] :: splitComma cs
    else
      match splitComma cs with
      | [] => [[c]]
      | w :: ws => (c :: w) :: ws

/-- Go `strings.Split(s, ",")`. -/
def Split (s : String) : List String :=
  (splitComma s.toList).map String.mk

/-- Go `strings.HasPrefix`. -/
def HasPrefix (s pre : String) : Bool :=
  pre.toList.isPrefixOf s.toList

/-! ## Library data types -/

/-- Go `net.IP`, a byte slice. -/
abbrev IP := List Nat

/-- Go `mail.Address`. -/
structure Address where
  Name : String
  Address : String
  deriving DecidableEq, Repr

/-- Go `url.URL`, restricted to its string components. -/
structure URL where
  Scheme : String := ""
  Opaque : String := ""
  Host : String := ""
  Path : String := ""
  RawQuery : String := ""
  Fragment : String := ""
  deriving DecidableEq, Repr

/-- Go `time.Time` and `time.Duration`, both counted in nanoseconds. -/
abbrev Time := Int

/-- Go `x509.KeyUsage` is an integer bit set. -/
abbrev KeyUsage := Nat

/-- Constant `x509.KeyUsageDigitalSignature` (`1 << 0`). -/
def KeyUsageDigitalSignature : KeyUsage := 1

/-- Constant `x509.KeyUsageKeyEncipherment` (`1 << 2`). -/
def KeyUsageKeyEncipherment : KeyUsage := 4

/-- Constant `x509.KeyUsageCertSign` (`1 << 5`). -/
def KeyUsageCertSign : KeyUsage := 32

/-- Go `x509.ExtKeyUsage`, in declaration order. -/
inductive ExtKeyUsage where
  | ExtKeyUsageAny
  | ExtKeyUsageServerAuth
  | ExtKeyUsageClientAuth
  | ExtKeyUsageCodeSigning
  | ExtKeyUsageEmailProtection
  | ExtKeyUsageIPSECEndSystem
  | ExtKeyUsageIPSECTunnel
  | ExtKeyUsageIPSECUser
  | ExtKeyUsageTimeStamping
  | ExtKeyUsageOCSPSigning
  | ExtKeyUsageMicrosoftServerGatedCrypto
  | ExtKeyUsageNetscapeServerGatedCrypto
  | ExtKeyUsageMicrosoftCommercialCodeSigning
  | ExtKeyUsageMicrosoftKernelCodeSigning
  deriving DecidableEq, Repr

open ExtKeyUsage

/-- Go `pkix.Name`, the two attributes `main` fills in. -/
structure Name where
  Organization : List String := []
  OrganizationalUnit : List String := []
  deriving DecidableEq, Repr

/-- Go `x509.Certificate`, the fields of the template `main` fills in.  A field
the composite literal leaves out has its zero value. -/
structure Certificate where
  SerialNumber : Nat
  Subject : Name
  NotBefore : Time
  NotAfter : Time
  KeyUsage : KeyUsage
  ExtKeyUsage : List ExtKeyUsage := []
  BasicConstraintsValid : Bool := false
  IsCA : Bool := false
  DNSNames : List String := []
  EmailAddresses : List String := []
  IPAddresses : List IP := []
  URIs : List URL := []
  deriving DecidableEq, Repr

/-- The named curves of `crypto/elliptic`. -/
inductive Curve where
  | P224 | P256 | P384 | P521
  deriving DecidableEq, Repr

/-- Go `ecdsa.PublicKey`. -/
structure ECDSAPublicKey where
  Curve : Curve
  X : Nat
  Y : Nat
  deriving DecidableEq, Repr

/-- Go `ecdsa.PrivateKey`, which embeds its public key. -/
structure ECDSAPrivateKey where
  PublicKey : ECDSAPublicKey
  D : Nat
  deriving DecidableEq, Repr

/-- The dynamic values of `priv interface{}` in `main`: the nil interface, an
`*ecdsa.PrivateKey`, or an `ed25519.PrivateKey` (a byte slice). -/
inductive PrivateKey where
  | nil
  | ecdsa (k : ECDSAPrivateKey)
  | ed25519 (k : List Nat)
  deriving DecidableEq, Repr

/-- What `publicKey` can return: nil, an `*ecdsa.PublicKey`, or an
`ed25519.PublicKey` (a byte slice). -/
inductive PublicKey where
  | nil
  | ecdsa (k : ECDSAPublicKey)
  | ed25519 (k : List Nat)
  deriving DecidableEq, Repr

/-! ## The environment of one run -/

/-- What the run obtains from outside the repository: the answers of the
standard-library parsers (`none` stands for a non-nil `error`, and for a nil
`net.IP`), the clock, the random serial number and the generated keys. -/
structure Env where
  /-- Function `net.ParseIP`. -/
  ParseIP : String → Option IP
  /-- Function `mail.ParseAddress`. -/
  ParseAddress : String → Option Address
  /-- Function `url.Parse`. -/
  Parse : String → Option URL
  /-- Function `time.Now`. -/
  Now : Time
  /-- Function `time.Parse` with the layout `Jan 2 15:04:05 2006`. -/
  ParseTime : String → Option Time
  /-- Result of `rand.Int(rand.Reader, 1 << 128)`. -/
  randInt : Option Nat
  /-- Function `ecdsa.GenerateKey` on each curve. -/
  ecdsaGenerateKey : Curve → Option ECDSAPrivateKey
  /-- Private key returned by `ed25519.GenerateKey`. -/
  ed25519GenerateKey : Option (List Nat)
  /-- Package variable `userAndHostname`, set by `init`. -/
  userAndHostname : String

/-- The command-line flags with their declared defaults. -/
structure Flags where
  host : String := ""
  ecdsaCurve : String := "P256"
  ed25519Key : Bool := false
  orgName : String := "Certgen Development"
  isNoCA : Bool := false
  isClient : Bool := false
  validFrom : String := ""
  validFor : Int := 365 * 24 * 3600000000000

/-- The `log.Fatalf` exits of `main` up to the creation of the certificate. -/
inductive Fatal where
  | missingHost
  | unrecognizedCurve (curve : String)
  | generateKey
  | parseDate
  | serialNumber
  | publicKeyNil
  deriving DecidableEq, Repr

/-! ## `publicKey` and the key selection of `main` -/

/-- Function `publicKey`: a type switch on the private key.  For an Ed25519 key
`k.Public()` copies `k[32:]`, the second half of the 64 bytes that
`ed25519.GenerateKey` returns. -/
def publicKey (priv : PrivateKey) : PublicKey :=
  match priv with
  | .ecdsa k => .ecdsa k.PublicKey
  | .ed25519 k => .ed25519 (k.drop 32)
  | .nil => .nil

/-- Call `ecdsa.GenerateKey` and the check `err != nil` that follows the switch. -/
def ecdsaKey (E : Env) (c : Curve) : Except Fatal PrivateKey :=
  match E.ecdsaGenerateKey c with
  | some k => .ok (.ecdsa k)
  | none => .error .generateKey

/-- The `switch *ecdsaCurve` of `main` with the check `err != nil` after it. -/
def selectKey (E : Env) (F : Flags) : Except Fatal PrivateKey :=
  if F.ecdsaCurve = "" then
    if F.ed25519Key then
      match E.ed25519GenerateKey with
      | some k => .ok (.ed25519 k)
      | none => .error .generateKey
    else .ok .nil
  else if F.ecdsaCurve = "P224" then ecdsaKey E .P224
  else if F.ecdsaCurve = "P256" then ecdsaKey E .P256
  else if F.ecdsaCurve = "P384" then ecdsaKey E .P384
  else if F.ecdsaCurve = "P521" then ecdsaKey E .P521
  else .error (.unrecognizedCurve F.ecdsaCurve)

/-! ## Classification of the identifiers -/

/-- The test `err == nil && email.Address == h` on `mail.ParseAddress(h)`. -/
def isEmail (E : Env) (h : String) : Bool :=
  match E.ParseAddress h with
  | some email => email.Address == h
  | none => false

/-- The test `err == nil && uriName.Scheme != "" && uriName.Host != ""` on
`url.Parse(h)`, returning the parsed URL when it holds. -/
def uriName (E : Env) (h : String) : Option URL :=
  match E.Parse h with
  | some u => if u.Scheme != "" && u.Host != "" then some u else none
  | none => none

/-- Body of the loop `for _, h := range hosts` that fills the SAN fields. -/
def classifyStep (E : Env) (template : Certificate) (h : String) : Certificate :=
  let h := TrimSpace h
  if h = "" then template
  else
    match E.ParseIP h with
    | some ip => { template with IPAddresses := template.IPAddresses ++ [ip] }
    | none =>
      if isEmail E h then
        { template with EmailAddresses := template.EmailAddresses ++ [h] }
      else
        match uriName E h with
        | some u => { template with URIs := template.URIs ++ [u] }
        | none => { template with DNSNames := template.DNSNames ++ [h] }

/-- The whole loop over `hosts`. -/
def classifyHosts (E : Env) (template : Certificate) (hosts : List String) : Certificate :=
  hosts.foldl (classifyStep E) template

/-! ## Extended key usage, CA mode and the template -/

/-- The two `if`s that append server-authentication and email-protection. -/
def addExtKeyUsage (template : Certificate) : Certificate :=
  let template :=
    if template.IPAddresses.length > 0 ∨ template.DNSNames.length > 0 ∨
        template.URIs.length > 0 then
      { template with ExtKeyUsage := template.ExtKeyUsage ++ [ExtKeyUsageServerAuth] }
    else template
  if template.EmailAddresses.length > 0 then
    { template with ExtKeyUsage := template.ExtKeyUsage ++ [ExtKeyUsageEmailProtection] }
  else template

/-- The `if *isClient ... else if !*isNoCA ...` of `main`. -/
def applyMode (F : Flags) (template : Certificate) : Certificate :=
  if F.isClient then
    { template with ExtKeyUsage := template.ExtKeyUsage ++ [ExtKeyUsageClientAuth] }
  else if !F.isNoCA then
    { template with IsCA := true, KeyUsage := template.KeyUsage ||| KeyUsageCertSign }
  else template

/-- The composite literal `x509.Certificate{...}` of `main`. -/
def initialTemplate (E : Env) (F : Flags) (serialNumber : Nat) (notBefore : Time) :
    Certificate :=
  { SerialNumber := serialNumber
    Subject := { Organization := [F.orgName], OrganizationalUnit := [E.userAndHostname] }
    NotBefore := notBefore
    NotAfter := notBefore + F.validFor
    KeyUsage := KeyUsageKeyEncipherment ||| KeyUsageDigitalSignature
    BasicConstraintsValid := true }

/-- The template as `main` passes it to `x509.CreateCertificate`. -/
def buildTemplate (E : Env) (F : Flags) (serialNumber : Nat) (notBefore : Time) :
    Certificate :=
  applyMode F (addExtKeyUsage
    (classifyHosts E (initialTemplate E F serialNumber notBefore) (Split F.host)))

/-- The start of the validity window: `time.Now()` or the parsed `-start-date`. -/
def notBeforeOf (E : Env) (F : Flags) : Except Fatal Time :=
  if F.validFrom.length = 0 then .ok E.Now
  else
    match E.ParseTime F.validFrom with
    | some t => .ok t
    | none => .error .parseDate

/-- Function `main` up to the call of `x509.CreateCertificate`: the template,
the private key and the public key handed to it, or the fatal exit. -/
def main (E : Env) (F : Flags) : Except Fatal (Certificate × PrivateKey × PublicKey) :=
  if F.host.length = 0 then .error .missingHost
  else
    match selectKey E F with
    | .error e => .error e
    | .ok priv =>
      match notBeforeOf E F with
      | .error e => .error e
      | .ok notBefore =>
        match E.randInt with
        | none => .error .serialNumber
        | some serialNumber =>
          let template := buildTemplate E F serialNumber notBefore
          let pkey := publicKey priv
          if pkey = .nil then .error .publicKeyNil
          else .ok (template, priv, pkey)

/-! ## The printed summary -/

/-- One `fmt.Printf` of the summary. -/
inductive Output where
  | created (certName certKey : String)
  | name (h : String)
  | warning (h : String)
  | reminder (rest : String)
  deriving DecidableEq, Repr

/-- The character class `[0-9a-z_-]` under the flag `(?i)`: the class, its upper
case, and the two code points that fold to `s` and `k` (U+017F, U+212A). -/
def wildcardLabelChar (c : Char) : Bool :=
  let n := c.toNat
  (48 ≤ n && n ≤ 57) || (97 ≤ n && n ≤ 122) || (65 ≤ n && n ≤ 90) ||
  n = 95 || n = 45 || n = 0x17F || n = 0x212A

/-- The test `secondLvlWildcardRegexp.MatchString(h)`: an asterisk, a dot, then
one or more class characters up to the end of the text. -/
def secondLvlWildcardRegexp (h : String) : Bool :=
  match h.toList with
  | a :: b :: c :: cs =>
    a.toNat = 42 && b.toNat = 46 && (c :: cs).all wildcardLabelChar
  | _ => false

/-- The file name of the certificate. -/
def certName (F : Flags) : String :=
  if F.isClient then "client.crt" else "public.crt"

/-- The file name of the private key. -/
def certKey (F : Flags) : String :=
  if F.isClient then "client.key" else "private.key"

/-- The loop that prints each identifier and the second-level-wildcard warning. -/
def printNames : List String → List Output
  | [] => []
  | h :: hosts =>
    let h := TrimSpace h
    if h = "" then printNames hosts
    else if secondLvlWildcardRegexp h then
      Output.name h :: Output.warning h :: printNames hosts
    else Output.name h :: printNames hosts

/-- The loop that prints the reminder for the first wildcard and breaks. -/
def printReminder : List String → List Output
  | [] => []
  | h :: hosts =>
    let h := TrimSpace h
    if h = "" then printReminder hosts
    else if HasPrefix h "*." then [Output.reminder (h.drop 2)]
    else printReminder hosts

/-- Everything `main` prints after the two files are written. -/
def summary (F : Flags) : List Output :=
  let hosts := Split F.host
  Output.created (certName F) (certKey F) :: (printNames hosts ++ printReminder hosts)

/-! ## A sample environment -/

/-- The 16-byte form `net.ParseIP` returns for `10.0.0.1`. -/
def ip10 : IP := [0, 0, 0, 0, 0, 0, 0, 0, 0, 0, 255, 255, 10, 0, 0, 1]

/-- The URL `url.Parse` returns for `https://svc.local:8443`. -/
def svcURL : URL := { Scheme := "https", Host := "svc.local:8443" }

/-- An environment that answers on `10.0.0.1`, `admin@example.com`,
`https://svc.local:8443`, `*.example.com` and `example.com` as the Go standard
library does; on other strings the IP and address parsers fail and the URL
parser returns a bare path.  Keys and serial number are fixed values. -/
def sampleEnv : Env :=
  { ParseIP := fun h => if h = "10.0.0.1" then some ip10 else none
    ParseAddress := fun h =>
      if h = "admin@example.com" then some { Name := "", Address := h } else none
    Parse := fun h =>
      if h = "https://svc.local:8443" then some svcURL else some { Path := h }
    Now := 0
    ParseTime := fun _ => none
    randInt := some 1
    ecdsaGenerateKey := fun c => some { PublicKey := { Curve := c, X := 1, Y := 1 }, D := 1 }
    ed25519GenerateKey := some (List.replicate 64 7)
    userAndHostname := "user@host" }

/-- What the Go standard library answers on the four identifiers of the
end-to-end example: `10.0.0.1` is an IP literal; `admin@example.com` is no IP
literal and parses as the address itself; `https://svc.local:8443` is neither
and parses as a URL with scheme `https` and host `svc.local:8443`;
`*.example.com` is no IP literal, no address, and parses as a bare path. -/
def GoAnswers (E : Env) : Prop :=
  E.ParseIP "10.0.0.1" = some ip10 ∧
  E.ParseIP "admin@example.com" = none ∧
  E.ParseAddress "admin@example.com" = some { Name := "", Address := "admin@example.com" } ∧
  E.ParseIP "https://svc.local:8443" = none ∧
  E.ParseAddress "https://svc.local:8443" = none ∧
  E.Parse "https://svc.local:8443" = some svcURL ∧
  E.ParseIP "*.example.com" = none ∧
  E.ParseAddress "*.example.com" = none ∧
  E.Parse "*.example.com" = some { Path := "*.example.com" }

/-! ## Vocabulary of the statements -/

/-- The identifiers the loops of `main` act on: the pieces of `Split`, trimmed,
without the empty ones, in input order. -/
def identifiers (host : String) : List String :=
  ((Split host).map TrimSpace).filter (fun h => h ≠ "")

/-- The four subject-alternative-name categories. -/
inductive Category where
  | ip | email | uri | dns
  deriving DecidableEq, Repr

/-- The category of a trimmed identifier: the first of the ordered checks IP,
email, URI that succeeds, and DNS when none does. -/
def classify (E : Env) (h : String) : Category :=
  if (E.ParseIP h).isSome then .ip
  else if isEmail E h then .email
  else if (uriName E h).isSome then .uri
  else .dns

/-- The number of entries over the four SAN sequences of a template. -/
def sanCount (t : Certificate) : Nat :=
  t.IPAddresses.length + t.EmailAddresses.length + t.URIs.length + t.DNSNames.length

/-! ## The loop over the identifiers -/

theorem classifyStep_empty (E : Env) (t : Certificate) (raw : String)
    (h : TrimSpace raw = "") : classifyStep E t raw = t := by
  simp [classifyStep, h]

theorem classifyStep_fixed (E : Env) (t : Certificate) (raw : String) :
    (classifyStep E t raw).KeyUsage = t.KeyUsage ∧
    (classifyStep E t raw).IsCA = t.IsCA ∧
    (classifyStep E t raw).ExtKeyUsage = t.ExtKeyUsage := by
  unfold classifyStep
  simp only
  split
  · exact ⟨rfl, rfl, rfl⟩
  · split
    · exact ⟨rfl, rfl, rfl⟩
    · split
      · exact ⟨rfl, rfl, rfl⟩
      · split <;> exact ⟨rfl, rfl, rfl⟩

theorem classifyHosts_fixed (E : Env) (hosts : List String) (t : Certificate) :
    (classifyHosts E t hosts).KeyUsage = t.KeyUsage ∧
    (classifyHosts E t hosts).IsCA = t.IsCA ∧
    (classifyHosts E t hosts).ExtKeyUsage = t.ExtKeyUsage := by
  induction hosts generalizing t with
  | nil => exact ⟨rfl, rfl, rfl⟩
  | cons raw rest ih =>
    have h1 := classifyStep_fixed E t raw
    have h2 := ih (classifyStep E t raw)
    simp only [classifyHosts, List.foldl_cons] at h2 ⊢
    exact ⟨h2.1.trans h1.1, h2.2.1.trans h1.2.1, h2.2.2.trans h1.2.2⟩

/-- The SAN sequences after one pass of the loop body on a non-empty identifier. -/
theorem classifyStep_san (E : Env) (t : Certificate) (raw : String)
    (hne : TrimSpace raw ≠ "") :
    (classifyStep E t raw).IPAddresses
        = t.IPAddresses ++ (E.ParseIP (TrimSpace raw)).toList ∧
    (classifyStep E t raw).EmailAddresses
        = t.EmailAddresses ++ [TrimSpace raw].filter (fun h => classify E h = .email) ∧
    (classifyStep E t raw).URIs
        = t.URIs ++ ([TrimSpace raw].filter (fun h => classify E h = .uri)).filterMap (uriName E) ∧
    (classifyStep E t raw).DNSNames
        = t.DNSNames ++ [TrimSpace raw].filter (fun h => classify E h = .dns) := by
  unfold classifyStep
  simp only [hne, if_false]
  cases hip : E.ParseIP (TrimSpace raw) with
  | some ip => simp [classify, hip]
  | none =>
    cases hem : isEmail E (TrimSpace raw) with
    | true => simp [classify, hip, hem]
    | false =>
      cases hu : uriName E (TrimSpace raw) with
      | some u => simp [classify, hip, hem, hu]
      | none => simp [classify, hip, hem, hu]

/-- The trimmed non-empty identifiers of a list of raw pieces. -/
theorem identifiers_cons_empty (raw : String) (rest : List String)
    (h : TrimSpace raw = "") :
    ((raw :: rest).map TrimSpace).filter (fun h => h ≠ "")
      = (rest.map TrimSpace).filter (fun h => h ≠ "") := by
  simp [h]

theorem identifiers_cons_nonempty (raw : String) (rest : List String)
    (h : TrimSpace raw ≠ "") :
    ((raw :: rest).map TrimSpace).filter (fun h => h ≠ "")
      = TrimSpace raw :: (rest.map TrimSpace).filter (fun h => h ≠ "") := by
  simp [h]

/-- An identifier of category URI has a parsed URL. -/
theorem uriName_of_classify (E : Env) (h : String) (hc : classify E h = .uri) :
    ∃ u, uriName E h = some u := by
  unfold classify at hc
  split at hc
  · cases hc
  · split at hc
    · cases hc
    · split at hc
      · rename_i hu
        exact Option.isSome_iff_exists.mp hu
      · cases hc

/-- The SAN sequences after the whole loop: what the template held before,
followed by the identifiers of each category in input order. -/
theorem classifyHosts_san (E : Env) (hosts : List String) (t : Certificate) :
    (classifyHosts E t hosts).IPAddresses
        = t.IPAddresses
          ++ ((hosts.map TrimSpace).filter (fun h => h ≠ "")).filterMap E.ParseIP ∧
    (classifyHosts E t hosts).EmailAddresses
        = t.EmailAddresses
          ++ ((hosts.map TrimSpace).filter (fun h => h ≠ "")).filter
              (fun h => classify E h = .email) ∧
    (classifyHosts E t hosts).URIs
        = t.URIs
          ++ (((hosts.map TrimSpace).filter (fun h => h ≠ "")).filter
              (fun h => classify E h = .uri)).filterMap (uriName E) ∧
    (classifyHosts E t hosts).DNSNames
        = t.DNSNames
          ++ ((hosts.map TrimSpace).filter (fun h => h ≠ "")).filter
              (fun h => classify E h = .dns) := by
  induction hosts generalizing t with
  | nil => simp [classifyHosts]
  | cons raw rest ih =>
    have h2 := ih (classifyStep E t raw)
    simp only [classifyHosts, List.foldl_cons] at h2 ⊢
    by_cases hne : TrimSpace raw = ""
    · rw [identifiers_cons_empty raw rest hne]
      rw [classifyStep_empty E t raw hne] at h2 ⊢
      exact h2
    · rw [identifiers_cons_nonempty raw rest hne]
      obtain ⟨s1, s2, s3, s4⟩ := classifyStep_san E t raw hne
      obtain ⟨a1, a2, a3, a4⟩ := h2
      rw [a1, a2, a3, a4, s1, s2, s3, s4]
      refine ⟨?_, ?_, ?_, ?_⟩
      · cases hip : E.ParseIP (TrimSpace raw) <;> simp [List.filterMap_cons, hip]
      · by_cases hc : classify E (TrimSpace raw) = .email <;> simp [List.filter_cons, hc]
      · by_cases hc : classify E (TrimSpace raw) = .uri
        · obtain ⟨u, hu⟩ := uriName_of_classify E (TrimSpace raw) hc
          simp [List.filter_cons, hc, List.filterMap_cons, hu]
        · simp [List.filter_cons, hc]
      · by_cases hc : classify E (TrimSpace raw) = .dns <;> simp [List.filter_cons, hc]

/-- Mapping the URI check over identifiers of category URI keeps them all. -/
theorem length_filterMap_uri (E : Env) (l : List String) :
    ((l.filter (fun h => classify E h = .uri)).filterMap (uriName E)).length
      = (l.filter (fun h => classify E h = .uri)).length := by
  induction l with
  | nil => rfl
  | cons h rest ih =>
    by_cases hc : classify E h = .uri
    · obtain ⟨u, hu⟩ := uriName_of_classify E h hc
      simp [List.filter_cons, hc, List.filterMap_cons, hu, ih]
    · simp [List.filter_cons, hc, ih]

/-- The identifiers that parse as IP are those of category IP. -/
theorem length_filterMap_ip (E : Env) (l : List String) :
    (l.filterMap E.ParseIP).length
      = (l.filter (fun h => classify E h = .ip)).length := by
  induction l with
  | nil => rfl
  | cons h rest ih =>
    cases hip : E.ParseIP h with
    | some ip => simp [List.filter_cons, List.filterMap_cons, hip, classify, ih]
    | none =>
      have hc : classify E h ≠ .ip := by
        unfold classify
        simp only [hip, Option.isSome_none, Bool.false_eq_true, if_false]
        split
        · simp
        · split <;> simp
      simp [List.filter_cons, List.filterMap_cons, hip, hc, ih]

/-- Parsing the identifiers as IP keeps exactly those of category IP. -/
theorem filterMap_ip_filter (E : Env) (l : List String) :
    l.filterMap E.ParseIP
      = (l.filter (fun h => classify E h = .ip)).filterMap E.ParseIP := by
  induction l with
  | nil => rfl
  | cons h rest ih =>
    cases hip : E.ParseIP h with
    | some ip => simp [List.filter_cons, List.filterMap_cons, hip, classify, ih]
    | none =>
      have hc : classify E h ≠ .ip := by
        unfold classify
        simp only [hip, Option.isSome_none, Bool.false_eq_true, if_false]
        split
        · simp
        · split <;> simp
      simp [List.filter_cons, List.filterMap_cons, hip, hc, ih]

/-- The four categories partition any list of identifiers. -/
theorem length_by_category (E : Env) (l : List String) :
    (l.filter (fun h => classify E h = .ip)).length
      + (l.filter (fun h => classify E h = .email)).length
      + (l.filter (fun h => classify E h = .uri)).length
      + (l.filter (fun h => classify E h = .dns)).length = l.length := by
  induction l with
  | nil => rfl
  | cons h rest ih =>
    cases hc : classify E h <;> simp [List.filter_cons, hc] <;> omega

/-! ## The template -/

/-- Neither `addExtKeyUsage` nor `applyMode` touches the SAN sequences. -/
theorem buildTemplate_classified (E : Env) (F : Flags) (sn : Nat) (nb : Time) :
    (buildTemplate E F sn nb).IPAddresses
        = (classifyHosts E (initialTemplate E F sn nb) (Split F.host)).IPAddresses ∧
    (buildTemplate E F sn nb).EmailAddresses
        = (classifyHosts E (initialTemplate E F sn nb) (Split F.host)).EmailAddresses ∧
    (buildTemplate E F sn nb).URIs
        = (classifyHosts E (initialTemplate E F sn nb) (Split F.host)).URIs ∧
    (buildTemplate E F sn nb).DNSNames
        = (classifyHosts E (initialTemplate E F sn nb) (Split F.host)).DNSNames := by
  unfold buildTemplate applyMode addExtKeyUsage
  simp only
  split <;> split <;> split <;> (try split) <;> exact ⟨rfl, rfl, rfl, rfl⟩

/-- The SAN sequences of the template: the identifiers of each category, in
input order. -/
theorem buildTemplate_san (E : Env) (F : Flags) (sn : Nat) (nb : Time) :
    (buildTemplate E F sn nb).IPAddresses = (identifiers F.host).filterMap E.ParseIP ∧
    (buildTemplate E F sn nb).EmailAddresses
        = (identifiers F.host).filter (fun h => classify E h = .email) ∧
    (buildTemplate E F sn nb).URIs
        = ((identifiers F.host).filter (fun h => classify E h = .uri)).filterMap (uriName E) ∧
    (buildTemplate E F sn nb).DNSNames
        = (identifiers F.host).filter (fun h => classify E h = .dns) := by
  obtain ⟨b1, b2, b3, b4⟩ := buildTemplate_classified E F sn nb
  obtain ⟨c1, c2, c3, c4⟩ :=
    classifyHosts_san E (Split F.host) (initialTemplate E F sn nb)
  rw [b1, b2, b3, b4, c1, c2, c3, c4]
  simp [initialTemplate, identifiers]

/-- What `addExtKeyUsage` appends. -/
theorem addExtKeyUsage_extKeyUsage (t : Certificate) :
    (addExtKeyUsage t).ExtKeyUsage
      = t.ExtKeyUsage
        ++ (if t.IPAddresses ≠ [] ∨ t.DNSNames ≠ [] ∨ t.URIs ≠ [] then
              [ExtKeyUsageServerAuth] else [])
        ++ (if t.EmailAddresses ≠ [] then [ExtKeyUsageEmailProtection] else []) := by
  obtain ⟨sn, sub, nb, na, ku, eku, bc, ca, dns, em, ips, uris⟩ := t
  unfold addExtKeyUsage
  cases dns <;> cases em <;> cases ips <;> cases uris <;> simp

/-- What `applyMode` appends. -/
theorem applyMode_extKeyUsage (F : Flags) (t : Certificate) :
    (applyMode F t).ExtKeyUsage
      = t.ExtKeyUsage ++ (if F.isClient then [ExtKeyUsageClientAuth] else []) := by
  unfold applyMode
  cases hc : F.isClient <;> cases hn : F.isNoCA <;> simp

/-- The extended key usages of the template, read off its SAN sequences and
the client flag. -/
theorem buildTemplate_extKeyUsage (E : Env) (F : Flags) (sn : Nat) (nb : Time) :
    (buildTemplate E F sn nb).ExtKeyUsage
      = (if (buildTemplate E F sn nb).IPAddresses ≠ [] ∨
            (buildTemplate E F sn nb).DNSNames ≠ [] ∨
            (buildTemplate E F sn nb).URIs ≠ [] then [ExtKeyUsageServerAuth] else [])
        ++ (if (buildTemplate E F sn nb).EmailAddresses ≠ [] then
              [ExtKeyUsageEmailProtection] else [])
        ++ (if F.isClient then [ExtKeyUsageClientAuth] else []) := by
  obtain ⟨b1, b2, b3, b4⟩ := buildTemplate_classified E F sn nb
  rw [b1, b2, b3, b4]
  have hx := (classifyHosts_fixed E (Split F.host) (initialTemplate E F sn nb)).2.2
  have h0 : (initialTemplate E F sn nb).ExtKeyUsage = [] := rfl
  rw [h0] at hx
  unfold buildTemplate
  rw [applyMode_extKeyUsage, addExtKeyUsage_extKeyUsage, hx, List.nil_append]

/-- Function `addExtKeyUsage` leaves the key usage and the CA flag alone. -/
theorem addExtKeyUsage_fixed (t : Certificate) :
    (addExtKeyUsage t).KeyUsage = t.KeyUsage ∧ (addExtKeyUsage t).IsCA = t.IsCA := by
  unfold addExtKeyUsage
  simp only
  split <;> split <;> exact ⟨rfl, rfl⟩

/-- The CA flag and the key usage after `applyMode`. -/
theorem applyMode_mode (F : Flags) (t : Certificate) :
    (applyMode F t).IsCA = (if (!F.isClient && !F.isNoCA) then true else t.IsCA) ∧
    (applyMode F t).KeyUsage
      = if (!F.isClient && !F.isNoCA) then t.KeyUsage ||| KeyUsageCertSign
        else t.KeyUsage := by
  unfold applyMode
  cases hc : F.isClient <;> cases hn : F.isNoCA <;> simp

/-- The CA flag and the key usage bits of the template. -/
theorem buildTemplate_mode (E : Env) (F : Flags) (sn : Nat) (nb : Time) :
    (buildTemplate E F sn nb).IsCA = (!F.isClient && !F.isNoCA) ∧
    (buildTemplate E F sn nb).KeyUsage
      = if (!F.isClient && !F.isNoCA) then
          KeyUsageKeyEncipherment ||| KeyUsageDigitalSignature ||| KeyUsageCertSign
        else KeyUsageKeyEncipherment ||| KeyUsageDigitalSignature := by
  obtain ⟨k, c, -⟩ := classifyHosts_fixed E (Split F.host) (initialTemplate E F sn nb)
  have k0 : (initialTemplate E F sn nb).KeyUsage
      = KeyUsageKeyEncipherment ||| KeyUsageDigitalSignature := rfl
  have c0 : (initialTemplate E F sn nb).IsCA = false := rfl
  rw [k0] at k
  rw [c0] at c
  unfold buildTemplate
  obtain ⟨m1, m2⟩ := applyMode_mode F
    (addExtKeyUsage (classifyHosts E (initialTemplate E F sn nb) (Split F.host)))
  obtain ⟨f1, f2⟩ := addExtKeyUsage_fixed
    (classifyHosts E (initialTemplate E F sn nb) (Split F.host))
  rw [m1, m2, f1, f2, k, c]
  cases hc : F.isClient <;> cases hn : F.isNoCA <;> simp

/-! ## Client mode, CA mode and the key usages -/

/-- C1: when the client flag is set, for every host string and every value of
the no-CA flag, the template has `IsCA = false`, its key usage lacks the
certificate-signing bit, and its extended key usages contain
client-authentication. -/
theorem client_mode_template (E : Env) (F : Flags) (sn : Nat) (nb : Time)
    (hc : F.isClient = true) :
    (buildTemplate E F sn nb).IsCA = false ∧
    (buildTemplate E F sn nb).KeyUsage &&& KeyUsageCertSign = 0 ∧
    ExtKeyUsageClientAuth ∈ (buildTemplate E F sn nb).ExtKeyUsage := by
  obtain ⟨m1, m2⟩ := buildTemplate_mode E F sn nb
  refine ⟨?_, ?_, ?_⟩
  · rw [m1, hc]; rfl
  · rw [m2, hc]; cases F.isNoCA <;> decide
  · rw [buildTemplate_extKeyUsage, hc]; simp

/-- The client-mode statement at the host `example.com` with the client flag set. -/
theorem client_mode_template_witness :
    (({ host := "example.com", isClient := true, isNoCA := false } : Flags).isClient = true) ∧
    (buildTemplate sampleEnv { host := "example.com", isClient := true, isNoCA := false }
        1 0).IsCA = false ∧
    (buildTemplate sampleEnv { host := "example.com", isClient := true, isNoCA := false }
        1 0).KeyUsage &&& KeyUsageCertSign = 0 ∧
    ExtKeyUsageClientAuth ∈
      (buildTemplate sampleEnv { host := "example.com", isClient := true, isNoCA := false }
        1 0).ExtKeyUsage :=
  ⟨rfl, client_mode_template sampleEnv
    { host := "example.com", isClient := true, isNoCA := false } 1 0 rfl⟩

/-- C2 as stated fails: with the client flag set, the host `example.com` (a DNS
name) yields both server-authentication and client-authentication. -/
theorem server_and_client_auth_together :
    (buildTemplate sampleEnv { host := "example.com", isClient := true } 1 0).ExtKeyUsage
      = [ExtKeyUsageServerAuth, ExtKeyUsageClientAuth] := by
  decide

/-- C2, amended: client-authentication is in the extended key usages exactly
when the client flag is set, whatever the SAN sequences hold; it stands
together with server-authentication exactly when the client flag is set and one
of the IP, DNS or URI sequences is non-empty. -/
theorem client_auth_iff_client_flag (E : Env) (F : Flags) (sn : Nat) (nb : Time) :
    (ExtKeyUsageClientAuth ∈ (buildTemplate E F sn nb).ExtKeyUsage ↔ F.isClient = true) ∧
    ((ExtKeyUsageServerAuth ∈ (buildTemplate E F sn nb).ExtKeyUsage ∧
        ExtKeyUsageClientAuth ∈ (buildTemplate E F sn nb).ExtKeyUsage) ↔
      (F.isClient = true ∧
        ((buildTemplate E F sn nb).IPAddresses ≠ [] ∨
          (buildTemplate E F sn nb).DNSNames ≠ [] ∨
          (buildTemplate E F sn nb).URIs ≠ []))) := by
  rw [buildTemplate_extKeyUsage]
  constructor
  · split_ifs <;> simp_all
  · split_ifs <;> simp_all

/-- C3: the key usage always contains digital-signature and key-encipherment;
it contains certificate-signing iff `IsCA` is true, which holds iff neither the
client flag nor the no-CA flag is set; non-client, non-no-CA mode sets `IsCA`
and adds certificate-signing; no-CA non-client mode has `IsCA = false` and
exactly the two base bits. -/
theorem key_usage_and_ca (E : Env) (F : Flags) (sn : Nat) (nb : Time) :
    (buildTemplate E F sn nb).KeyUsage &&& KeyUsageDigitalSignature
        = KeyUsageDigitalSignature ∧
    (buildTemplate E F sn nb).KeyUsage &&& KeyUsageKeyEncipherment
        = KeyUsageKeyEncipherment ∧
    ((buildTemplate E F sn nb).KeyUsage &&& KeyUsageCertSign = KeyUsageCertSign ↔
        (buildTemplate E F sn nb).IsCA = true) ∧
    ((buildTemplate E F sn nb).IsCA = true ↔ (F.isClient = false ∧ F.isNoCA = false)) ∧
    (F.isClient = false → F.isNoCA = false →
        (buildTemplate E F sn nb).IsCA = true ∧
        (buildTemplate E F sn nb).KeyUsage
          = KeyUsageKeyEncipherment ||| KeyUsageDigitalSignature ||| KeyUsageCertSign) ∧
    (F.isClient = false → F.isNoCA = true →
        (buildTemplate E F sn nb).IsCA = false ∧
        (buildTemplate E F sn nb).KeyUsage
          = KeyUsageKeyEncipherment ||| KeyUsageDigitalSignature) := by
  obtain ⟨m1, m2⟩ := buildTemplate_mode E F sn nb
  rw [m1, m2]
  cases hc : F.isClient <;> cases hn : F.isNoCA <;> decide

/-! ## Server authentication and email protection -/

/-- C4: the extended key usages contain server-authentication iff one of the
IP, DNS or URI sequences is non-empty, email-protection iff the email sequence
is non-empty, and no purpose twice; both purposes are present at once for the
host `10.0.0.1, admin@example.com`. -/
theorem server_auth_and_email_protection (E : Env) (F : Flags) (sn : Nat) (nb : Time) :
    (ExtKeyUsageServerAuth ∈ (buildTemplate E F sn nb).ExtKeyUsage ↔
      ((buildTemplate E F sn nb).IPAddresses ≠ [] ∨
        (buildTemplate E F sn nb).DNSNames ≠ [] ∨
        (buildTemplate E F sn nb).URIs ≠ [])) ∧
    (ExtKeyUsageEmailProtection ∈ (buildTemplate E F sn nb).ExtKeyUsage ↔
      (buildTemplate E F sn nb).EmailAddresses ≠ []) ∧
    (∀ u : ExtKeyUsage, (buildTemplate E F sn nb).ExtKeyUsage.count u ≤ 1) ∧
    (ExtKeyUsageServerAuth ∈
        (buildTemplate sampleEnv { host := "10.0.0.1, admin@example.com" } 1 0).ExtKeyUsage ∧
      ExtKeyUsageEmailProtection ∈
        (buildTemplate sampleEnv { host := "10.0.0.1, admin@example.com" } 1 0).ExtKeyUsage) := by
  rw [buildTemplate_extKeyUsage]
  refine ⟨?_, ?_, ?_, by decide⟩
  · split_ifs <;> simp_all
  · split_ifs <;> simp_all
  · intro u
    split_ifs <;> cases u <;> decide

/-! ## No usable identifier -/

/-- When every piece of the host string is empty after trimming, there is no
identifier. -/
theorem identifiers_eq_nil (host : String)
    (hall : ∀ raw ∈ Split host, TrimSpace raw = "") : identifiers host = [] := by
  unfold identifiers
  rw [List.filter_eq_nil_iff]
  intro h hmem
  obtain ⟨raw, hraw, rfl⟩ := List.mem_map.mp hmem
  simp [hall raw hraw]

/-- C5 as stated fails: the host `" , "` has no usable identifier, yet with the
client flag set the extended key usages are not empty. -/
theorem no_identifier_client_not_empty :
    (∀ raw ∈ Split " , ", TrimSpace raw = "") ∧
    (buildTemplate sampleEnv { host := " , ", isClient := true } 1 0).ExtKeyUsage
      = [ExtKeyUsageClientAuth] := by
  decide

/-- C5, amended: when every comma-separated piece of the host string is empty
after trimming, the four SAN sequences are empty and the extended key usages
hold neither server-authentication nor email-protection: the list is empty when
the client flag is unset and is exactly client-authentication when it is set. -/
theorem no_identifier_template (E : Env) (F : Flags) (sn : Nat) (nb : Time)
    (hall : ∀ raw ∈ Split F.host, TrimSpace raw = "") :
    (buildTemplate E F sn nb).IPAddresses = [] ∧
    (buildTemplate E F sn nb).EmailAddresses = [] ∧
    (buildTemplate E F sn nb).URIs = [] ∧
    (buildTemplate E F sn nb).DNSNames = [] ∧
    (buildTemplate E F sn nb).ExtKeyUsage
      = if F.isClient then [ExtKeyUsageClientAuth] else [] := by
  obtain ⟨s1, s2, s3, s4⟩ := buildTemplate_san E F sn nb
  rw [identifiers_eq_nil F.host hall] at s1 s2 s3 s4
  have e1 : (buildTemplate E F sn nb).IPAddresses = [] := by simpa using s1
  have e2 : (buildTemplate E F sn nb).EmailAddresses = [] := by simpa using s2
  have e3 : (buildTemplate E F sn nb).URIs = [] := by simpa using s3
  have e4 : (buildTemplate E F sn nb).DNSNames = [] := by simpa using s4
  refine ⟨e1, e2, e3, e4, ?_⟩
  rw [buildTemplate_extKeyUsage, e1, e2, e3, e4]
  simp

/-- The statement on hosts without identifiers at the host `" , "`. -/
theorem no_identifier_template_witness :
    (∀ raw ∈ Split ({ host := " , " } : Flags).host, TrimSpace raw = "") ∧
    (buildTemplate sampleEnv { host := " , " } 1 0).IPAddresses = [] ∧
    (buildTemplate sampleEnv { host := " , " } 1 0).EmailAddresses = [] ∧
    (buildTemplate sampleEnv { host := " , " } 1 0).URIs = [] ∧
    (buildTemplate sampleEnv { host := " , " } 1 0).DNSNames = [] ∧
    (buildTemplate sampleEnv { host := " , " } 1 0).ExtKeyUsage
      = if ({ host := " , " } : Flags).isClient then [ExtKeyUsageClientAuth] else [] :=
  ⟨by decide, no_identifier_template sampleEnv { host := " , " } 1 0 (by decide)⟩

/-! ## First match wins -/

/-- C6: on a piece that is non-empty after trimming, the loop body tries IP,
email, URI in this order and the first success decides: an IP literal goes to
the IP sequence whatever the other parsers answer; a non-IP whose address parse
renders back the identifier goes to the email sequence; one failing both that
parses as a URL with scheme and host goes to the URI sequence; any other goes to
the DNS sequence.  Exactly one sequence grows, by one entry. -/
theorem first_match_wins (E : Env) (t : Certificate) (raw : String)
    (hne : TrimSpace raw ≠ "") :
    (∀ ip, E.ParseIP (TrimSpace raw) = some ip →
      classifyStep E t raw = { t with IPAddresses := t.IPAddresses ++ [ip] }) ∧
    (∀ email, E.ParseIP (TrimSpace raw) = none →
      E.ParseAddress (TrimSpace raw) = some email → email.Address = TrimSpace raw →
      classifyStep E t raw
        = { t with EmailAddresses := t.EmailAddresses ++ [TrimSpace raw] }) ∧
    (∀ u, E.ParseIP (TrimSpace raw) = none →
      (∀ email, E.ParseAddress (TrimSpace raw) = some email →
        email.Address ≠ TrimSpace raw) →
      E.Parse (TrimSpace raw) = some u → u.Scheme ≠ "" → u.Host ≠ "" →
      classifyStep E t raw = { t with URIs := t.URIs ++ [u] }) ∧
    (E.ParseIP (TrimSpace raw) = none →
      (∀ email, E.ParseAddress (TrimSpace raw) = some email →
        email.Address ≠ TrimSpace raw) →
      (∀ u, E.Parse (TrimSpace raw) = some u → u.Scheme = "" ∨ u.Host = "") →
      classifyStep E t raw = { t with DNSNames := t.DNSNames ++ [TrimSpace raw] }) ∧
    (sanCount (classifyStep E t raw) = sanCount t + 1 ∧
      t.IPAddresses <+: (classifyStep E t raw).IPAddresses ∧
      t.EmailAddresses <+: (classifyStep E t raw).EmailAddresses ∧
      t.URIs <+: (classifyStep E t raw).URIs ∧
      t.DNSNames <+: (classifyStep E t raw).DNSNames) := by
  have hmail : ∀ email, E.ParseAddress (TrimSpace raw) = some email →
      email.Address = TrimSpace raw → isEmail E (TrimSpace raw) = true := by
    intro email h1 h2
    simp [isEmail, h1, h2]
  have hnomail : (∀ email, E.ParseAddress (TrimSpace raw) = some email →
      email.Address ≠ TrimSpace raw) → isEmail E (TrimSpace raw) = false := by
    intro h
    unfold isEmail
    cases hp : E.ParseAddress (TrimSpace raw) with
    | none => rfl
    | some email => simpa using h email hp
  refine ⟨?_, ?_, ?_, ?_, ?_⟩
  · intro ip hip
    simp [classifyStep, hne, hip]
  · intro email hip h1 h2
    simp [classifyStep, hne, hip, hmail email h1 h2]
  · intro u hip hm hu h1 h2
    have : uriName E (TrimSpace raw) = some u := by simp [uriName, hu, h1, h2]
    simp [classifyStep, hne, hip, hnomail hm, this]
  · intro hip hm hu
    have : uriName E (TrimSpace raw) = none := by
      unfold uriName
      cases hp : E.Parse (TrimSpace raw) with
      | none => rfl
      | some u => rcases hu u hp with h | h <;> simp [h]
    simp [classifyStep, hne, hip, hnomail hm, this]
  · obtain ⟨s1, s2, s3, s4⟩ := classifyStep_san E t raw hne
    unfold sanCount
    rw [s1, s2, s3, s4]
    refine ⟨?_, List.prefix_append _ _, List.prefix_append _ _, List.prefix_append _ _,
      List.prefix_append _ _⟩
    cases hip : E.ParseIP (TrimSpace raw) with
    | some ip => simp [classify, hip]; omega
    | none =>
      cases hem : isEmail E (TrimSpace raw) with
      | true => simp [classify, hip, hem]; omega
      | false =>
        cases hu : uriName E (TrimSpace raw) with
        | some u => simp [classify, hip, hem, hu]; omega
        | none => simp [classify, hip, hem, hu]; omega

/-- The first-match statement at the piece `" 10.0.0.1"`, an IP literal. -/
theorem first_match_wins_witness :
    TrimSpace " 10.0.0.1" ≠ "" ∧
    classifyStep sampleEnv (initialTemplate sampleEnv { host := " 10.0.0.1" } 1 0) " 10.0.0.1"
      = { initialTemplate sampleEnv { host := " 10.0.0.1" } 1 0 with IPAddresses := [ip10] } :=
  ⟨by decide,
    (first_match_wins sampleEnv (initialTemplate sampleEnv { host := " 10.0.0.1" } 1 0)
      " 10.0.0.1" (by decide)).1 ip10 (by decide)⟩

/-! ## Nothing dropped, nothing duplicated -/

/-- The identifiers are as many as the pieces that are non-empty after trimming. -/
theorem identifiers_length (host : String) :
    (identifiers host).length
      = ((Split host).filter (fun raw => TrimSpace raw ≠ "")).length := by
  unfold identifiers
  rw [List.filter_map, List.length_map]
  rfl

/-- C7: the entries of the IP, email, URI and DNS sequences are as many as the
comma-separated pieces that are non-empty after trimming; each sequence lists
the identifiers of its category in input order (the IP and URI sequences as
parsed values); so the four sequences are not all empty when there is at least
one identifier. -/
theorem san_sequences_partition (E : Env) (F : Flags) (sn : Nat) (nb : Time) :
    sanCount (buildTemplate E F sn nb)
      = ((Split F.host).filter (fun raw => TrimSpace raw ≠ "")).length ∧
    (buildTemplate E F sn nb).IPAddresses
      = ((identifiers F.host).filter (fun h => classify E h = .ip)).filterMap E.ParseIP ∧
    (buildTemplate E F sn nb).IPAddresses.length
      = ((identifiers F.host).filter (fun h => classify E h = .ip)).length ∧
    (buildTemplate E F sn nb).EmailAddresses
      = (identifiers F.host).filter (fun h => classify E h = .email) ∧
    (buildTemplate E F sn nb).URIs
      = ((identifiers F.host).filter (fun h => classify E h = .uri)).filterMap (uriName E) ∧
    (buildTemplate E F sn nb).URIs.length
      = ((identifiers F.host).filter (fun h => classify E h = .uri)).length ∧
    (buildTemplate E F sn nb).DNSNames
      = (identifiers F.host).filter (fun h => classify E h = .dns) ∧
    (identifiers F.host ≠ [] →
      ¬ ((buildTemplate E F sn nb).IPAddresses = [] ∧
          (buildTemplate E F sn nb).EmailAddresses = [] ∧
          (buildTemplate E F sn nb).URIs = [] ∧
          (buildTemplate E F sn nb).DNSNames = [])) := by
  obtain ⟨s1, s2, s3, s4⟩ := buildTemplate_san E F sn nb
  have hcount : sanCount (buildTemplate E F sn nb) = (identifiers F.host).length := by
    unfold sanCount
    rw [s1, s2, s3, s4, length_filterMap_ip, length_filterMap_uri]
    exact length_by_category E (identifiers F.host)
  refine ⟨?_, ?_, ?_, s2, s3, ?_, s4, ?_⟩
  · rw [hcount, identifiers_length]
  · rw [s1, filterMap_ip_filter]
  · rw [s1, length_filterMap_ip]
  · rw [s3, length_filterMap_uri]
  · intro hne hall
    obtain ⟨e1, e2, e3, e4⟩ := hall
    have hz : sanCount (buildTemplate E F sn nb) = 0 := by
      simp [sanCount, e1, e2, e3, e4]
    rw [hcount] at hz
    exact hne (List.length_eq_zero.mp hz)

/-! ## The end-to-end example -/

/-- The identifiers of the end-to-end example. -/
theorem identifiers_example :
    identifiers "10.0.0.1, admin@example.com, https://svc.local:8443, *.example.com"
      = ["10.0.0.1", "admin@example.com", "https://svc.local:8443", "*.example.com"] := by
  decide

/-- The sample environment answers as `GoAnswers` requires. -/
theorem sampleEnv_goAnswers : GoAnswers sampleEnv := by
  unfold GoAnswers sampleEnv
  decide

/-- C8: for the host `10.0.0.1, admin@example.com, https://svc.local:8443,
*.example.com` with the client and no-CA flags unset, under the answers of the
Go standard library on these four identifiers, the template has IP =
[10.0.0.1], email = [admin@example.com], URI = [https://svc.local:8443], DNS =
[*.example.com], extended key usages exactly [server-auth, email-protection],
and `IsCA = true`. -/
theorem end_to_end_example (E : Env) (F : Flags) (sn : Nat) (nb : Time)
    (hgo : GoAnswers E)
    (hhost : F.host = "10.0.0.1, admin@example.com, https://svc.local:8443, *.example.com")
    (hc : F.isClient = false) (hn : F.isNoCA = false) :
    (buildTemplate E F sn nb).IPAddresses = [ip10] ∧
    (buildTemplate E F sn nb).EmailAddresses = ["admin@example.com"] ∧
    (buildTemplate E F sn nb).URIs = [svcURL] ∧
    (buildTemplate E F sn nb).DNSNames = ["*.example.com"] ∧
    (buildTemplate E F sn nb).ExtKeyUsage
      = [ExtKeyUsageServerAuth, ExtKeyUsageEmailProtection] ∧
    (buildTemplate E F sn nb).IsCA = true := by
  obtain ⟨g1, g2, g3, g4, g5, g6, g7, g8, g9⟩ := hgo
  have u3 : uriName E "https://svc.local:8443" = some svcURL := by
    rw [uriName, g6]; rfl
  have u4 : uriName E "*.example.com" = none := by
    rw [uriName, g9]; rfl
  have c1 : classify E "10.0.0.1" = .ip := by simp [classify, g1]
  have c2 : classify E "admin@example.com" = .email := by
    simp [classify, g2, isEmail, g3]
  have c3 : classify E "https://svc.local:8443" = .uri := by
    simp [classify, g4, isEmail, g5, u3]
  have c4 : classify E "*.example.com" = .dns := by
    simp [classify, g7, isEmail, g8, u4]
  obtain ⟨s1, s2, s3, s4⟩ := buildTemplate_san E F sn nb
  rw [hhost, identifiers_example] at s1 s2 s3 s4
  have e1 : (buildTemplate E F sn nb).IPAddresses = [ip10] := by
    rw [s1]; simp [List.filterMap_cons, g1, g2, g4, g7]
  have e2 : (buildTemplate E F sn nb).EmailAddresses = ["admin@example.com"] := by
    rw [s2]; simp [List.filter_cons, c1, c2, c3, c4]
  have e3 : (buildTemplate E F sn nb).URIs = [svcURL] := by
    rw [s3]; simp [List.filter_cons, c1, c2, c3, c4, List.filterMap_cons, u3]
  have e4 : (buildTemplate E F sn nb).DNSNames = ["*.example.com"] := by
    rw [s4]; simp [List.filter_cons, c1, c2, c3, c4]
  refine ⟨e1, e2, e3, e4, ?_, ?_⟩
  · rw [buildTemplate_extKeyUsage, e1, e2, e3, e4, hc]; simp
  · rw [(buildTemplate_mode E F sn nb).1, hc, hn]; rfl

/-- The end-to-end example in the sample environment with the default flags. -/
theorem end_to_end_example_witness :
    GoAnswers sampleEnv ∧
    (buildTemplate sampleEnv
      { host := "10.0.0.1, admin@example.com, https://svc.local:8443, *.example.com" }
      1 0).IPAddresses = [ip10] ∧
    (buildTemplate sampleEnv
      { host := "10.0.0.1, admin@example.com, https://svc.local:8443, *.example.com" }
      1 0).EmailAddresses = ["admin@example.com"] ∧
    (buildTemplate sampleEnv
      { host := "10.0.0.1, admin@example.com, https://svc.local:8443, *.example.com" }
      1 0).URIs = [svcURL] ∧
    (buildTemplate sampleEnv
      { host := "10.0.0.1, admin@example.com, https://svc.local:8443, *.example.com" }
      1 0).DNSNames = ["*.example.com"] ∧
    (buildTemplate sampleEnv
      { host := "10.0.0.1, admin@example.com, https://svc.local:8443, *.example.com" }
      1 0).ExtKeyUsage = [ExtKeyUsageServerAuth, ExtKeyUsageEmailProtection] ∧
    (buildTemplate sampleEnv
      { host := "10.0.0.1, admin@example.com, https://svc.local:8443, *.example.com" }
      1 0).IsCA = true :=
  ⟨sampleEnv_goAnswers,
    end_to_end_example sampleEnv
      { host := "10.0.0.1, admin@example.com, https://svc.local:8443, *.example.com" }
      1 0 sampleEnv_goAnswers rfl rfl rfl⟩

/-! ## The second-level-wildcard warning -/

/-- The names loop prints a warning for an identifier exactly when the
identifier is among those it walks over and matches the pattern. -/
theorem warning_mem_printNames (hosts : List String) (h : String) :
    Output.warning h ∈ printNames hosts ↔
      (h ∈ (hosts.map TrimSpace).filter (fun x => x ≠ "") ∧
        secondLvlWildcardRegexp h = true) := by
  induction hosts with
  | nil => simp [printNames]
  | cons raw rest ih =>
    unfold printNames
    simp only
    by_cases hne : TrimSpace raw = ""
    · rw [identifiers_cons_empty raw rest hne]
      simp only [hne, if_true]
      exact ih
    · rw [identifiers_cons_nonempty raw rest hne]
      simp only [hne, if_false]
      by_cases hm : secondLvlWildcardRegexp (TrimSpace raw) = true
      · simp only [hm, if_true, List.mem_cons, ih, reduceCtorEq, false_or,
          Output.warning.injEq]
        constructor
        · rintro (h1 | h1)
          · rw [h1]
            exact ⟨Or.inl rfl, hm⟩
          · exact ⟨Or.inr h1.1, h1.2⟩
        · rintro ⟨h1 | h1, h2⟩
          · exact Or.inl h1
          · exact Or.inr ⟨h1, h2⟩
      · simp only [hm, if_false, List.mem_cons, ih, reduceCtorEq, false_or]
        constructor
        · rintro h1
          exact ⟨Or.inr h1.1, h1.2⟩
        · rintro ⟨h1 | h1, h2⟩
          · rw [h1] at h2
            exact absurd h2 hm
          · exact ⟨h1, h2⟩

/-- The reminder loop prints no warning. -/
theorem warning_not_mem_printReminder (hosts : List String) (h : String) :
    Output.warning h ∉ printReminder hosts := by
  induction hosts with
  | nil => simp [printReminder]
  | cons raw rest ih =>
    unfold printReminder
    simp only
    split
    · exact ih
    · split
      · simp
      · exact ih

/-- C9 as stated fails: for the host `*.example.com` the pattern does not match
and the summary holds the identifier and the reminder, but no warning. -/
theorem example_com_wildcard_no_warning :
    secondLvlWildcardRegexp "*.example.com" = false ∧
    summary { host := "*.example.com" }
      = [Output.created "public.crt" "private.key", Output.name "*.example.com",
          Output.reminder "example.com"] := by
  decide

/-- C9, amended: the summary prints the warning for exactly the trimmed
identifiers that match the pattern of the code, which is an asterisk and a dot
followed by one or more characters of the class `[0-9a-z_-]` taken without
case, up to the end: `*.com` matches, while neither `*.example.com` nor
`*.sub.example.com` does, so neither triggers the warning. -/
theorem wildcard_warning_exact (F : Flags) (h : String) :
    (Output.warning h ∈ summary F ↔
      (h ∈ identifiers F.host ∧ secondLvlWildcardRegexp h = true)) ∧
    (secondLvlWildcardRegexp h = true ↔
      ∃ label : List Char, h.toList = Char.ofNat 42 :: Char.ofNat 46 :: label ∧
        label ≠ [] ∧ ∀ c ∈ label, wildcardLabelChar c = true) ∧
    secondLvlWildcardRegexp "*.com" = true ∧
    secondLvlWildcardRegexp "*.example.com" = false ∧
    secondLvlWildcardRegexp "*.sub.example.com" = false ∧
    Output.warning "*.example.com" ∉ summary { host := "*.example.com" } ∧
    Output.warning "*.sub.example.com" ∉ summary { host := "*.sub.example.com" } := by
  refine ⟨?_, ?_, by decide, by decide, by decide, by decide, by decide⟩
  · unfold summary identifiers
    simp only [List.mem_cons, List.mem_append, reduceCtorEq, false_or]
    rw [warning_mem_printNames]
    constructor
    · rintro (h1 | h1)
      · exact h1
      · exact absurd h1 (warning_not_mem_printReminder _ _)
    · exact fun h1 => Or.inl h1
  · unfold secondLvlWildcardRegexp
    constructor
    · intro hm
      split at hm
      · rename_i a b c cs heq
        simp only [Bool.and_eq_true, decide_eq_true_eq] at hm
        obtain ⟨⟨ha, hb⟩, hall⟩ := hm
        refine ⟨c :: cs, ?_, by simp, ?_⟩
        · rw [heq]
          have ea : a = Char.ofNat 42 := by
            have := Char.ofNat_toNat a
            rw [ha] at this
            exact this.symm
          have eb : b = Char.ofNat 46 := by
            have := Char.ofNat_toNat b
            rw [hb] at this
            exact this.symm
          rw [ea, eb]
        · intro x hx
          exact List.all_eq_true.mp hall x hx
      · cases hm
    · rintro ⟨label, hl, hne, hall⟩
      rw [hl]
      cases label with
      | nil => exact absurd rfl hne
      | cons c cs =>
        simp only [Bool.and_eq_true, decide_eq_true_eq]
        exact ⟨⟨by decide, by decide⟩, List.all_eq_true.mpr hall⟩

/-! ## Key selection -/

/-- C10, the code at the failing input: with the ed25519 flag set and the curve
flag at `P256`, its default, the switch takes the branch of `P256` and the key
is the ECDSA key, never an Ed25519 key; the flag is honoured only when the
curve flag is the empty string, and then `publicKey` returns a non-nil Ed25519
public key. -/
theorem ed25519_flag_under_default_curve (E : Env) (F : Flags) :
    ({} : Flags).ecdsaCurve = "P256" ∧
    selectKey E { F with ecdsaCurve := "P256", ed25519Key := true } = ecdsaKey E .P256 ∧
    (∀ k, selectKey E { F with ecdsaCurve := "P256", ed25519Key := true }
        ≠ .ok (.ed25519 k)) ∧
    (∀ r, main E { F with ecdsaCurve := "P256", ed25519Key := true } = .ok r →
        ∃ k, r.2.1 = .ecdsa k ∧ r.2.2 = .ecdsa k.PublicKey) ∧
    (∀ k, E.ed25519GenerateKey = some k →
        selectKey E { F with ecdsaCurve := "", ed25519Key := true } = .ok (.ed25519 k) ∧
        publicKey (.ed25519 k) = .ed25519 (k.drop 32) ∧
        publicKey (.ed25519 k) ≠ .nil) ∧
    (∃ k, main sampleEnv { host := "example.com", ed25519Key := true }
        = .ok (buildTemplate sampleEnv { host := "example.com", ed25519Key := true } 1 0,
            .ecdsa k, .ecdsa k.PublicKey)) := by
  have hsel : selectKey E { F with ecdsaCurve := "P256", ed25519Key := true }
      = ecdsaKey E .P256 := by
    simp [selectKey]
  refine ⟨rfl, hsel, ?_, ?_, ?_, ?_⟩
  · intro k
    rw [hsel]
    unfold ecdsaKey
    cases E.ecdsaGenerateKey .P256 <;> simp
  · intro r hr
    unfold main at hr
    rw [hsel] at hr
    unfold ecdsaKey at hr
    split at hr
    · cases hr
    · cases hg : E.ecdsaGenerateKey .P256 with
      | none => rw [hg] at hr; cases hr
      | some k =>
        rw [hg] at hr
        simp only at hr
        split at hr
        · cases hr
        · split at hr
          · cases hr
          · simp only [publicKey] at hr
            split at hr
            · cases hr
            · cases hr
              exact ⟨k, rfl, rfl⟩
  · intro k hk
    refine ⟨?_, rfl, ?_⟩
    · simp [selectKey, hk]
    · simp [publicKey]
  · exact ⟨{ PublicKey := { Curve := .P256, X := 1, Y := 1 }, D := 1 }, rfl⟩

/-! ## The run as a whole -/

/-- Pieces of `Split` on the empty string, on blanks and on a mixed list. -/
theorem Split_examples :
    Split "" = [""] ∧ Split " , " = [" ", " "] ∧
    (Split " a, b ,,c").map TrimSpace = ["a", "b", "", "c"] := by
  decide

/-- A run that reaches `x509.CreateCertificate` passes it the template built
from the drawn serial number and the start of the validity window, and a
public key that is not nil. -/
theorem main_template (E : Env) (F : Flags)
    (r : Certificate × PrivateKey × PublicKey) (hr : main E F = .ok r) :
    F.host ≠ "" ∧ selectKey E F = .ok r.2.1 ∧ r.2.2 = publicKey r.2.1 ∧ r.2.2 ≠ .nil ∧
    ∃ sn nb, E.randInt = some sn ∧ notBeforeOf E F = .ok nb ∧
      r.1 = buildTemplate E F sn nb := by
  unfold main at hr
  split at hr
  · cases hr
  · rename_i hlen
    have hhost : F.host ≠ "" := by
      intro h0
      apply hlen
      rw [h0]
      rfl
    split at hr
    · cases hr
    · rename_i priv hsel
      split at hr
      · cases hr
      · rename_i nb hnb
        split at hr
        · cases hr
        · rename_i sn hsn
          simp only at hr
          split at hr
          · cases hr
          · rename_i hnil
            cases hr
            exact ⟨hhost, hsel, rfl, hnil, sn, nb, hsn, hnb, rfl⟩

/-- The sample run on `example.com` with the default flags reaches the call. -/
theorem main_template_witness :
    main sampleEnv { host := "example.com" }
      = .ok (buildTemplate sampleEnv { host := "example.com" } 1 0,
          .ecdsa { PublicKey := { Curve := .P256, X := 1, Y := 1 }, D := 1 },
          .ecdsa { Curve := .P256, X := 1, Y := 1 }) ∧
    ∃ sn nb, sampleEnv.randInt = some sn ∧
      notBeforeOf sampleEnv { host := "example.com" } = .ok nb ∧
      buildTemplate sampleEnv { host := "example.com" } 1 0
        = buildTemplate sampleEnv { host := "example.com" } sn nb :=
  ⟨rfl, (main_template sampleEnv { host := "example.com" } _ rfl).2.2.2.2⟩

end Certgen
